import Mathlib

/-!
Verification development for the hitster web player's session and playback
orchestration core (player/src/player.js and the application part of
player/src/ui.js).  The JavaScript is shallowly embedded: each asynchronous
method becomes a pure Lean function that takes the outcome of its remote
calls (HTTP status codes, parsed payloads) as explicit parameters and
returns the mutated object state together with the HTTP requests it issued
and the thrown-error / return-value outcome (`Except String _`, errors being
the JavaScript `Error.message` strings, on which the UI layer branches).
-/

/-- Track shape produced by `SpotifyPlayer.getTrackInfo` (player.js). -/
structure Track where
  id : String
  uri : String
  name : String
  artists : List String
  artistString : String
  album : String
  albumArt : Option String
  albumArtSmall : Option String
  year : Option Int
  durationMs : Nat
  previewUrl : Option String
deriving DecidableEq

/-- The mutable fields of the `SpotifyPlayer` class (player.js constructor). -/
structure SpotifyPlayer where
  token : String
  selectedDeviceId : Option String
  currentTrack : Option Track
  isPlaying : Bool
deriving DecidableEq

/-- A device as returned by the Spotify devices listing (fields used by the
code: `id`, `name`, `type`, `is_active`). -/
structure Device where
  id : String
  name : String
  type : String
  is_active : Bool
deriving DecidableEq

/-- The shape persisted to localStorage by `saveDevice` (ui.js). -/
structure SavedDevice where
  id : String
  name : String
  type : String
deriving DecidableEq

/-- A JavaScript number: NaN, the two infinities, or a finite value
(every finite double is a rational, and the operations the code applies —
`Math.round`, `Math.min`, `Math.max` — are exact on them). -/
inductive JSNum where
  | nan
  | posInf
  | negInf
  | fin (q : ℚ)
deriving DecidableEq

/-- Body of an HTTP request issued by the gateway, kept structured rather
than JSON-serialized: `transferBody` is `JSON.stringify({device_ids, play})`,
`playBody` is `JSON.stringify({uris})`, `volumeQuery` records the
`volume_percent` (and optional `device_id`) query parameters of the volume
call, `noBody` is a request without body. -/
inductive RequestBody where
  | noBody
  | transferBody (deviceIds : List String) (startPlaying : Bool)
  | playBody (uris : List String)
  | volumeQuery (volumePercent : JSNum) (deviceId : Option String)
deriving DecidableEq

/-- An HTTP request sent through `apiRequest`. -/
structure HttpRequest where
  method : String
  endpoint : String
  body : RequestBody
deriving DecidableEq

/-- Error message thrown by `apiRequest` on HTTP 401 (player.js). -/
def msgExpired : String := "Token expired. Please log in again."

/-- Error message thrown by `apiRequest` on HTTP 403 (player.js). -/
def msgPremium : String := "Premium required for playback control."

/-- Error message thrown by `apiRequest` on HTTP 404 (player.js). -/
def msgNoDevice : String := "No active device found. Open Spotify on a device first."

/-- `response.ok` of the Fetch API: status in the range 200-299. -/
def responseOk (status : Nat) : Bool := decide (200 ≤ status) && decide (status < 300)

/-- `SpotifyPlayer.apiRequest` (player.js): performs the fetch and throws on
the three specially handled statuses, otherwise hands the response back to
the caller.  The response is represented by its status code. -/
def apiRequest (status : Nat) : Except String Nat :=
  if status = 401 then .error msgExpired
  else if status = 403 then .error msgPremium
  else if status = 404 then .error msgNoDevice
  else .ok status

/-- A status that makes the accepted branch of the playback PUT calls run:
`apiRequest` does not throw and `response.ok || response.status === 204`. -/
def acceptedStatus (status : Nat) : Bool :=
  match apiRequest status with
  | .error _ => false
  | .ok st => responseOk st || st == 204

/-- `SpotifyPlayer.transferPlayback` (player.js): PUT `/me/player` with the
device id, then — only after the response was accepted — record the id in
`selectedDeviceId`.  Returns (new state, issued request, outcome). -/
def transferPlayback (p : SpotifyPlayer) (deviceId : String) (startPlaying : Bool)
    (status : Nat) : SpotifyPlayer × HttpRequest × Except String Unit :=
  let req : HttpRequest := ⟨"PUT", "/me/player", .transferBody [deviceId] startPlaying⟩
  match apiRequest status with
  | .error e => (p, req, .error e)
  | .ok st =>
      if responseOk st || st == 204 then
        ({ p with selectedDeviceId := some deviceId }, req, .ok ())
      else
        (p, req, .error "Failed to transfer playback")

/-- `SpotifyPlayer.play` (player.js): PUT the play command, and on an
accepted response set `isPlaying := true` and then fetch the track metadata
(`getTrackInfo`, whose outcome is the parameter `tres`) into `currentTrack`.
Returns (new state, issued requests, outcome).  Note the source order: the
`isPlaying` flag is raised before the metadata fetch is awaited. -/
def play (p : SpotifyPlayer) (uri : String) (deviceId : Option String)
    (status : Nat) (tres : Except String Track) :
    SpotifyPlayer × List HttpRequest × Except String Track :=
  let targetDevice := match deviceId with
    | some d => some d
    | none => p.selectedDeviceId
  let endpoint := match targetDevice with
    | some d => "/me/player/play?device_id=" ++ d
    | none => "/me/player/play"
  let req : HttpRequest := ⟨"PUT", endpoint, .playBody [uri]⟩
  match apiRequest status with
  | .error e => (p, [req], .error e)
  | .ok st =>
      if responseOk st || st == 204 then
        let trackId := ((uri.splitOn ":").drop 2).headD "undefined"
        let treq : HttpRequest := ⟨"GET", "/tracks/" ++ trackId, .noBody⟩
        match tres with
        | .ok t => ({ p with isPlaying := true, currentTrack := some t }, [req, treq], .ok t)
        | .error e => ({ p with isPlaying := true }, [req, treq], .error e)
      else
        (p, [req], .error "Failed to start playback")

/-- The state of the `SpotifyPlayer` object while `play` is suspended at
`await this.getTrackInfo(trackId)`: `isPlaying` has already been set, the
metadata has not yet been applied. -/
def playMidState (p : SpotifyPlayer) : SpotifyPlayer := { p with isPlaying := true }

/-- The sequence of `SpotifyPlayer` states observable at the suspension
points of one `play` call under the single-threaded event-loop model: the
state while the play PUT is awaited, then (when the command was accepted)
the state while the metadata GET is awaited, then the state when `play`
settles. -/
def playObservableStates (p : SpotifyPlayer) (uri : String) (deviceId : Option String)
    (status : Nat) (tres : Except String Track) : List SpotifyPlayer :=
  if acceptedStatus status then
    [p, playMidState p, (play p uri deviceId status tres).1]
  else
    [p, p]

/-- `SpotifyPlayer.pause` (player.js). -/
def pause (p : SpotifyPlayer) (status : Nat) :
    SpotifyPlayer × HttpRequest × Except String Unit :=
  let endpoint := match p.selectedDeviceId with
    | some d => "/me/player/pause?device_id=" ++ d
    | none => "/me/player/pause"
  let req : HttpRequest := ⟨"PUT", endpoint, .noBody⟩
  match apiRequest status with
  | .error e => (p, req, .error e)
  | .ok st =>
      if responseOk st || st == 204 then ({ p with isPlaying := false }, req, .ok ())
      else (p, req, .error "Failed to pause playback")

/-- `SpotifyPlayer.resume` (player.js). -/
def resume (p : SpotifyPlayer) (status : Nat) :
    SpotifyPlayer × HttpRequest × Except String Unit :=
  let endpoint := match p.selectedDeviceId with
    | some d => "/me/player/play?device_id=" ++ d
    | none => "/me/player/play"
  let req : HttpRequest := ⟨"PUT", endpoint, .noBody⟩
  match apiRequest status with
  | .error e => (p, req, .error e)
  | .ok st =>
      if responseOk st || st == 204 then ({ p with isPlaying := true }, req, .ok ())
      else (p, req, .error "Failed to resume playback")

/-- `SpotifyPlayer.togglePlayback` (player.js): pause or resume based on the
locally tracked `isPlaying`, returning the new flag. -/
def togglePlayback (p : SpotifyPlayer) (status : Nat) :
    SpotifyPlayer × Except String Bool :=
  if p.isPlaying then
    match pause p status with
    | (p', _, .ok _) => (p', .ok p'.isPlaying)
    | (p', _, .error e) => (p', .error e)
  else
    match resume p status with
    | (p', _, .ok _) => (p', .ok p'.isPlaying)
    | (p', _, .error e) => (p', .error e)

/-- `SpotifyPlayer.getDevices` (player.js); `devices` is the parsed
`data.devices` payload of a 200 response. -/
def getDevices (status : Nat) (devices : List Device) :
    HttpRequest × Except String (List Device) :=
  (⟨"GET", "/me/player/devices", .noBody⟩,
    match apiRequest status with
    | .error e => .error e
    | .ok st => if responseOk st then .ok devices else .error "Failed to get devices")

/-- `SpotifyPlayer.getUserProfile` (player.js); `displayName` is the parsed
profile payload's `display_name`. -/
def getUserProfile (status : Nat) (displayName : String) :
    HttpRequest × Except String String :=
  (⟨"GET", "/me", .noBody⟩,
    match apiRequest status with
    | .error e => .error e
    | .ok st => if responseOk st then .ok displayName else .error "Failed to get user profile")

/-- `Math.round`: round half toward positive infinity; NaN and the
infinities pass through. -/
def jsRound : JSNum → JSNum
  | .nan => .nan
  | .posInf => .posInf
  | .negInf => .negInf
  | .fin q => .fin (((q + 1/2 : ℚ).floor : ℤ) : ℚ)

/-- `Math.min` on two JavaScript numbers. -/
def jsMin : JSNum → JSNum → JSNum
  | .nan, _ => .nan
  | _, .nan => .nan
  | .negInf, _ => .negInf
  | _, .negInf => .negInf
  | .posInf, b => b
  | a, .posInf => a
  | .fin a, .fin b => .fin (min a b)

/-- `Math.max` on two JavaScript numbers. -/
def jsMax : JSNum → JSNum → JSNum
  | .nan, _ => .nan
  | _, .nan => .nan
  | .posInf, _ => .posInf
  | _, .posInf => .posInf
  | .negInf, b => b
  | a, .negInf => a
  | .fin a, .fin b => .fin (max a b)

/-- The `volume_percent` value `SpotifyPlayer.setVolume` (player.js)
transmits: `Math.max(0, Math.min(100, Math.round(volumePercent)))`. -/
def setVolumeTransmitted (volumePercent : JSNum) : JSNum :=
  jsMax (.fin 0) (jsMin (.fin 100) (jsRound volumePercent))

/-- Whether a JavaScript number is a finite value inside [0, 100]. -/
def inVolumeRange (v : JSNum) : Bool :=
  match v with
  | .fin q => decide (0 ≤ q) && decide (q ≤ 100)
  | _ => false

/-- `SpotifyPlayer.setVolume` (player.js): clamp, send, and throw only when
the response is not accepted. -/
def setVolume (p : SpotifyPlayer) (volumePercent : JSNum) (status : Nat) :
    HttpRequest × Except String Unit :=
  (⟨"PUT", "/me/player/volume", .volumeQuery (setVolumeTransmitted volumePercent) p.selectedDeviceId⟩,
    match apiRequest status with
    | .error e => .error e
    | .ok st =>
        if responseOk st || st == 204 then .ok ()
        else .error "Failed to set volume")

/-- JavaScript whitespace skipped by `parseInt` (the forms relevant to
release-date strings). -/
def isJsWhitespace (c : Char) : Bool :=
  c == ' ' || c == '\t' || c == '\n' || c == '\r'

/-- JavaScript `parseInt(s, 10)`: skip leading whitespace, read an optional
sign and then the maximal run of leading decimal digits; `none` models NaN
(no digits at all). -/
def jsParseInt10 (s : String) : Option Int :=
  let cs := s.data.dropWhile isJsWhitespace
  let signed : Int × List Char :=
    match cs with
    | '-' :: rest => (-1, rest)
    | '+' :: rest => (1, rest)
    | _ => (1, cs)
  let ds := signed.2.takeWhile Char.isDigit
  if ds.isEmpty then none
  else some (signed.1 * (ds.foldl (fun acc c => acc * 10 + (c.toNat - '0'.toNat)) 0 : Nat))

/-- JavaScript `s.substring(0, 4)`. -/
def first4 (s : String) : String := String.mk (s.data.take 4)

/-- `SpotifyPlayer.extractYear` (player.js): `null` for an absent or empty
(falsy) release date, otherwise `parseInt` of the first four characters,
with NaN mapped to `null`. -/
def extractYear (releaseDate : Option String) : Option Int :=
  match releaseDate with
  | none => none
  | some s =>
      if s = "" then none
      else
        match jsParseInt10 (first4 s) with
        | none => none
        | some y => some y

/-- A toast notification: message and kind string passed to `showToast`. -/
structure Toast where
  message : String
  kind : String
deriving DecidableEq

/-- The application-level state of ui.js (main-app part): the module-level
mutable bindings `player`, `selectedDevice`, `isYearRevealed`, the scanner
lifecycle flag, the screen currently shown by `showScreen`, and the two
storage slots the session touches.  `storedToken` is modelled from the spec:
auth.js is not among the sources; per the spec the auth collaborator keeps a
single stored-token slot with `getStoredToken`/`clearToken`.  `savedDevice`
is the localStorage slot of `saveDevice`/`getSavedDevice`/`clearSavedDevice`
(ui.js).  `toasts` accumulates the notifications shown. -/
structure App where
  player : SpotifyPlayer
  selectedDevice : Option Device
  isYearRevealed : Bool
  scannerActive : Bool
  screen : String
  storedToken : Option String
  savedDevice : Option SavedDevice
  toasts : List Toast
deriving DecidableEq

/-- JavaScript `String.prototype.includes`: `sub` occurs contiguously in
`s`. -/
def strIncludes (s sub : String) : Bool :=
  (List.range (s.length + 1)).any (fun i => sub.data.isPrefixOf (s.data.drop i))

/-- `handleScan` (ui.js): reset the reveal flag, attempt `play`, on success
apply the track to the UI, on failure toast the error message and — when the
message mentions a device problem — re-check the device list.  It never
touches the stored token, the persisted device, or the screen.  Returns the
new application state and the HTTP requests issued. -/
def handleScan (a : App) (uri : String) (playStatus : Nat)
    (tres : Except String Track) (dstatus : Nat) (devs : List Device) :
    App × List HttpRequest :=
  let a1 : App := { a with isYearRevealed := false,
                           toasts := a.toasts ++ [⟨"Loading track...", "info"⟩] }
  let pr := play a.player uri none playStatus tres
  match pr.2.2 with
  | .ok _ =>
      ({ a1 with player := pr.1,
                 toasts := a1.toasts ++ [⟨"Now playing!", "success"⟩] }, pr.2.1)
  | .error e =>
      let a2 : App := { a1 with player := pr.1,
                                toasts := a1.toasts ++ [⟨e, "error"⟩] }
      if strIncludes e "device" || strIncludes e "No active" then
        let a3 : App := { a2 with
          toasts := a2.toasts ++ [⟨"Device unavailable - tap to refresh", "warning"⟩] }
        let dr := getDevices dstatus devs
        match dr.2 with
        | .ok ds =>
            let still : Bool := match a.selectedDevice with
              | some sd => ds.any (fun d => d.id == sd.id)
              | none => false
            if still then (a3, pr.2.1 ++ [dr.1])
            else
              ({ a3 with toasts := a3.toasts ++
                  [⟨"Device went offline. Open Spotify and try again.", "error"⟩] },
               pr.2.1 ++ [dr.1])
        | .error _ => (a3, pr.2.1 ++ [dr.1])
      else (a2, pr.2.1)

/-- `handleReveal` (ui.js): set the reveal flag; the rest of the handler
only updates the DOM. -/
def handleReveal (a : App) : App := { a with isYearRevealed := true }

/-- App-level `togglePlayback` handler (ui.js). -/
def togglePlaybackApp (a : App) (status : Nat) : App :=
  match togglePlayback a.player status with
  | (p', .ok _) => { a with player := p' }
  | (p', .error e) => { a with player := p', toasts := a.toasts ++ [⟨e, "error"⟩] }

/-- `startScanning` (ui.js): bail out with a warning when no device is
selected; otherwise show the player screen and start the scanner
(`scannerRes` is the outcome of `scanner.start()`).  No gateway request is
issued.  Returns the new application state and the issued requests. -/
def startScanning (a : App) (scannerRes : Except String Unit) :
    App × List HttpRequest :=
  if a.selectedDevice.isNone then
    ({ a with toasts := a.toasts ++ [⟨"Please select a device first", "warning"⟩] }, [])
  else
    let a1 : App := { a with screen := "player-screen" }
    match scannerRes with
    | .ok _ =>
        ({ a1 with scannerActive := true,
                   toasts := a1.toasts ++ [⟨"Scanner ready!", "success"⟩] }, [])
    | .error e =>
        ({ a1 with toasts := a1.toasts ++ [⟨"Failed to start camera: " ++ e, "error"⟩] }, [])

/-- `selectDevice` (ui.js), with the device list already at hand: record the
selection in the app state and the player, persist it, toast it. -/
def selectDevice (a : App) (deviceId : String) (devices : List Device) : App :=
  match devices.find? (fun d => d.id == deviceId) with
  | none => a
  | some d =>
      { a with selectedDevice := some d,
               player := { a.player with selectedDeviceId := some deviceId },
               savedDevice := some ⟨d.id, d.name, d.type⟩,
               toasts := a.toasts ++ [⟨"Selected: " ++ d.name, "info"⟩] }

/-- `refreshDevices` (ui.js): list devices and, when none is selected yet,
auto-select the one the service reports active; failures and the empty list
only affect the DOM. -/
def refreshDevices (a : App) (status : Nat) (devices : List Device) : App :=
  match (getDevices status devices).2 with
  | .error _ => a
  | .ok ds =>
      if ds.isEmpty then a
      else if a.selectedDevice.isNone then
        match ds.find? (fun d => d.is_active) with
        | some ad => selectDevice a ad.id ds
        | none => a
      else a

/-- `showDeviceSelection` (ui.js): show the setup screen and load the
device list. -/
def showDeviceSelection (a : App) (status : Nat) (devices : List Device) : App :=
  refreshDevices { a with screen := "setup-screen" } status devices

/-- `initializePlayer` (ui.js): construct the player, verify the token via
the profile fetch, then either resume on a still-available saved device,
fall back to device selection, or — when a call failed with the
token-expired error — clear the stored token and the persisted device and
return to the login screen.  `screen0` is the screen shown before the call;
`profileStatus`/`displayName` model the profile fetch, `devStatus`/`devices`
the device listing, `scannerRes` the scanner start on the resume path. -/
def initializePlayer (screen0 : String) (storedToken : Option String)
    (savedDevice : Option SavedDevice) (token : String)
    (profileStatus : Nat) (displayName : String)
    (devStatus : Nat) (devices : List Device)
    (scannerRes : Except String Unit) : App :=
  let p0 : SpotifyPlayer := ⟨token, none, none, false⟩
  let a0 : App := ⟨p0, none, false, false, screen0, storedToken, savedDevice, []⟩
  let onError : String → App := fun e =>
    if strIncludes e "expired" || strIncludes e "401" then
      { a0 with storedToken := none, savedDevice := none,
                toasts := a0.toasts ++ [⟨"Session expired. Please log in again.", "warning"⟩],
                screen := "login-screen" }
    else
      { a0 with toasts := a0.toasts ++ [⟨e, "error"⟩] }
  match (getUserProfile profileStatus displayName).2 with
  | .error e => onError e
  | .ok name =>
      match savedDevice with
      | some sd =>
          match (getDevices devStatus devices).2 with
          | .error e => onError e
          | .ok ds =>
              match ds.find? (fun d => d.id == sd.id) with
              | some d =>
                  let a1 : App := { a0 with
                    selectedDevice := some d,
                    player := { p0 with selectedDeviceId := some sd.id },
                    toasts := a0.toasts ++ [⟨"Resuming on " ++ sd.name, "success"⟩] }
                  (startScanning a1 scannerRes).1
              | none =>
                  let a1 : App := { a0 with
                    savedDevice := none,
                    toasts := a0.toasts ++
                      [⟨"Previous device unavailable. Please select a new one.", "warning"⟩] }
                  showDeviceSelection
                    { a1 with toasts := a1.toasts ++ [⟨"Welcome, " ++ name ++ "!", "success"⟩] }
                    devStatus devices
      | none =>
          showDeviceSelection
            { a0 with toasts := a0.toasts ++ [⟨"Welcome, " ++ name ++ "!", "success"⟩] }
            devStatus devices

/-- The operations of the active-play session, for stating invariants of
the reveal flag across everything that runs on the player screen. -/
inductive AppOp where
  | scan (uri : String) (playStatus : Nat) (tres : Except String Track)
      (dstatus : Nat) (devs : List Device)
  | reveal
  | toggle (status : Nat)

/-- One step of the active-play session. -/
def stepApp (a : App) : AppOp → App
  | .scan uri ps tres ds devs => (handleScan a uri ps tres ds devs).1
  | .reveal => handleReveal a
  | .toggle st => togglePlaybackApp a st

/-- Modelled from the spec: scanner.js (the `QRScanner` class) is not among
the sources.  Per the spec the scanning module "emits decoded identifiers
with a configurable cooldown", a "minimum inter-event interval": a decoded
event is delivered to the `onScan` callback iff at least `cooldownMs` has
elapsed since the previously delivered event.  Given the (ordered) arrival
times of raw decode events, this returns the times of the delivered ones. -/
def deliveredScanTimesAux (cooldownMs : Nat) : Option Nat → List Nat → List Nat
  | _, [] => []
  | none, t :: ts => t :: deliveredScanTimesAux cooldownMs (some t) ts
  | some last, t :: ts =>
      if last + cooldownMs ≤ t then t :: deliveredScanTimesAux cooldownMs (some t) ts
      else deliveredScanTimesAux cooldownMs (some last) ts

/-- Times at which decode events are delivered to `handleScan`, starting
with no prior event. -/
def deliveredScanTimes (cooldownMs : Nat) (events : List Nat) : List Nat :=
  deliveredScanTimesAux cooldownMs none events

/-- Whether a request is the play command PUT (the only PUT whose body is a
`uris` payload). -/
def isPlayRequest (r : HttpRequest) : Bool :=
  r.method == "PUT" &&
    (match r.body with
     | .playBody _ => true
     | _ => false)

/-- Number of play-command requests in a request list. -/
def countPlayRequests (rs : List HttpRequest) : Nat := rs.countP (fun r => isPlayRequest r)

/-- Sample track used by concrete counterexamples and witnesses. -/
def trackA : Track :=
  ⟨"idA", "spotify:track:idA", "Song A", ["Artist A"], "Artist A", "Album A",
   none, none, some 1975, 200000, none⟩

/-- A second, distinct sample track. -/
def trackB : Track :=
  ⟨"idB", "spotify:track:idB", "Song B", ["Artist B"], "Artist B", "Album B",
   none, none, some 1984, 180000, none⟩

/-- Sample gateway state: device selected, `trackA` current, not playing. -/
def samplePlayer : SpotifyPlayer := ⟨"tok", some "dev1", some trackA, false⟩

/-- Sample device matching `samplePlayer`'s selection. -/
def sampleDevice : Device := ⟨"dev1", "Kitchen speaker", "speaker", true⟩

/-- Sample application state in active-play with the reveal flag raised. -/
def sampleApp : App :=
  { player := { samplePlayer with isPlaying := true },
    selectedDevice := some sampleDevice,
    isYearRevealed := true,
    scannerActive := true,
    screen := "player-screen",
    storedToken := some "tok",
    savedDevice := some ⟨"dev1", "Kitchen speaker", "speaker"⟩,
    toasts := [] }

/-- Sample application state on the setup screen with no device selected. -/
def sampleSetupApp : App :=
  { player := ⟨"tok", none, none, false⟩,
    selectedDevice := none,
    isYearRevealed := false,
    scannerActive := false,
    screen := "setup-screen",
    storedToken := some "tok",
    savedDevice := none,
    toasts := [] }

/-- Sample application state on the setup screen with a device selected. -/
def sampleSetupAppDev : App :=
  { sampleSetupApp with selectedDevice := some sampleDevice, player := samplePlayer }

theorem play_apiError (p : SpotifyPlayer) (uri : String) (d : Option String)
    (st : Nat) (tres : Except String Track) (e : String)
    (h : apiRequest st = .error e) :
    (play p uri d st tres).1 = p ∧ (play p uri d st tres).2.2 = .error e := by
  unfold play
  rw [h]
  exact ⟨rfl, rfl⟩

theorem handleScan_fixed (a : App) (uri : String) (ps : Nat)
    (tres : Except String Track) (ds : Nat) (devs : List Device) :
    (handleScan a uri ps tres ds devs).1.storedToken = a.storedToken ∧
    (handleScan a uri ps tres ds devs).1.savedDevice = a.savedDevice ∧
    (handleScan a uri ps tres ds devs).1.screen = a.screen ∧
    (handleScan a uri ps tres ds devs).1.isYearRevealed = false ∧
    (handleScan a uri ps tres ds devs).1.player = (play a.player uri none ps tres).1 := by
  refine ⟨?_, ?_, ?_, ?_, ?_⟩ <;> (unfold handleScan; dsimp only; repeat' split) <;> rfl

theorem countPlay_play (p : SpotifyPlayer) (uri : String) (d : Option String)
    (st : Nat) (tres : Except String Track) :
    countPlayRequests (play p uri d st tres).2.1 = 1 := by
  unfold play
  dsimp only
  (repeat' split) <;> rfl

theorem handleScan_requests (a : App) (uri : String) (ps : Nat)
    (tres : Except String Track) (ds : Nat) (devs : List Device) :
    (handleScan a uri ps tres ds devs).2 = (play a.player uri none ps tres).2.1 ∨
    (handleScan a uri ps tres ds devs).2 =
      (play a.player uri none ps tres).2.1 ++ [(getDevices ds devs).1] := by
  unfold handleScan
  dsimp only
  (repeat' split) <;> simp

theorem countPlay_handleScan (a : App) (uri : String) (ps : Nat)
    (tres : Except String Track) (ds : Nat) (devs : List Device) :
    countPlayRequests (handleScan a uri ps tres ds devs).2 = 1 := by
  have h := countPlay_play a.player uri none ps tres
  rcases handleScan_requests a uri ps tres ds devs with hr | hr <;> rw [hr]
  · exact h
  · unfold countPlayRequests at h ⊢
    rw [List.countP_append, h]
    rfl

theorem handleScan_error_toast (a : App) (uri : String) (ps : Nat)
    (tres : Except String Track) (ds : Nat) (devs : List Device) (e : String)
    (h : (play a.player uri none ps tres).2.2 = .error e) :
    (⟨e, "error"⟩ : Toast) ∈ (handleScan a uri ps tres ds devs).1.toasts := by
  unfold handleScan
  dsimp only
  rw [h]
  dsimp only
  (repeat' split) <;> simp

/-- C9: year extraction takes the first four characters of the release-date
string parsed as an integer (JavaScript `parseInt` semantics), and yields
null when the field is absent, empty, or unparsable: "1975-03-01" gives
1975, "1975" gives 1975, "" or an absent field gives null, and a digit-free
prefix such as "abcd-01-01" gives null. -/
theorem C9_extractYear :
    (∀ s : String, s ≠ "" → extractYear (some s) = jsParseInt10 (first4 s)) ∧
    extractYear (some "1975-03-01") = some 1975 ∧
    extractYear (some "1975") = some 1975 ∧
    extractYear (some "") = none ∧
    extractYear none = none ∧
    extractYear (some "abcd-01-01") = none := by
  refine ⟨?_, by decide, by decide, by decide, rfl, by decide⟩
  intro s hs
  unfold extractYear
  dsimp only
  rw [if_neg hs]
  cases h : jsParseInt10 (first4 s) <;> simp [h]

/-- C9 witness: the general first-four-characters clause of `C9_extractYear`
evaluated at the concrete release date "1975-03-01". -/
theorem C9_extractYear_witness :
    ("1975-03-01" : String) ≠ "" ∧
    extractYear (some "1975-03-01") = jsParseInt10 (first4 "1975-03-01") :=
  ⟨by decide, C9_extractYear.1 "1975-03-01" (by decide)⟩

/-- C10: transferPlayback is atomic with respect to the local state — the
tracked selectedDeviceId becomes the given device id exactly when the remote
request returned success, and whenever the call throws the whole player
state, selectedDeviceId included, is what it was before the call. -/
theorem C10_transferAtomic (p : SpotifyPlayer) (deviceId : String)
    (startPlaying : Bool) (status : Nat) :
    ((transferPlayback p deviceId startPlaying status).2.2 = .ok () →
      (transferPlayback p deviceId startPlaying status).1 =
        { p with selectedDeviceId := some deviceId }) ∧
    (∀ e : String, (transferPlayback p deviceId startPlaying status).2.2 = .error e →
      (transferPlayback p deviceId startPlaying status).1 = p) := by
  unfold transferPlayback
  dsimp only
  (repeat' split) <;> simp

/-- C10 witness: `C10_transferAtomic` at a 204 response (device recorded)
and at a 500 response (state unchanged). -/
theorem C10_transferAtomic_witness :
    (transferPlayback samplePlayer "dev2" false 204).1 =
      { samplePlayer with selectedDeviceId := some "dev2" } ∧
    (transferPlayback samplePlayer "dev2" false 500).1 = samplePlayer :=
  ⟨(C10_transferAtomic samplePlayer "dev2" false 204).1 rfl,
   (C10_transferAtomic samplePlayer "dev2" false 500).2 "Failed to transfer playback" rfl⟩

/-- C5: a play call that fails with HTTP 404 leaves the gateway state
unchanged on error — currentTrack is what it was before the call and
isPlaying stays false given it was false before — and the
NoActiveDevice-kind notification (the no-active-device error toast) is
produced for the user. -/
theorem C5_play404 (a : App) (uri : String) (tres : Except String Track)
    (dstatus : Nat) (devs : List Device)
    (h : a.player.isPlaying = false) :
    (handleScan a uri 404 tres dstatus devs).1.player.currentTrack = a.player.currentTrack ∧
    (handleScan a uri 404 tres dstatus devs).1.player.isPlaying = false ∧
    (⟨msgNoDevice, "error"⟩ : Toast) ∈ (handleScan a uri 404 tres dstatus devs).1.toasts := by
  have hp := play_apiError a.player uri none 404 tres msgNoDevice rfl
  have hf := handleScan_fixed a uri 404 tres dstatus devs
  refine ⟨?_, ?_, handleScan_error_toast a uri 404 tres dstatus devs msgNoDevice hp.2⟩
  · rw [hf.2.2.2.2, hp.1]
  · rw [hf.2.2.2.2, hp.1, h]

/-- C5 witness: `C5_play404` at a concrete not-playing state scanning
trackB with a 404 response. -/
theorem C5_play404_witness :
    sampleSetupApp.player.isPlaying = false ∧
    ((handleScan sampleSetupApp "spotify:track:idB" 404 (.ok trackB) 200 []).1.player.currentTrack
        = sampleSetupApp.player.currentTrack ∧
     (handleScan sampleSetupApp "spotify:track:idB" 404 (.ok trackB) 200 []).1.player.isPlaying
        = false ∧
     (⟨msgNoDevice, "error"⟩ : Toast) ∈
        (handleScan sampleSetupApp "spotify:track:idB" 404 (.ok trackB) 200 []).1.toasts) :=
  ⟨rfl, C5_play404 sampleSetupApp "spotify:track:idB" (.ok trackB) 200 [] rfl⟩

/-- C3 counterexample: transferPlayback issues its remote transfer PUT
unconditionally on every call, so calling it a second time with the same
device id does produce an additional remote transfer call — both the first
and the second call issue the identical PUT /me/player request, giving two
remote calls where the claim allows only the one a single call requires. -/
theorem C3_counterexample :
    (transferPlayback samplePlayer "dev1" false 204).2.1 =
      (⟨"PUT", "/me/player", .transferBody ["dev1"] false⟩ : HttpRequest) ∧
    (transferPlayback (transferPlayback samplePlayer "dev1" false 204).1
        "dev1" false 204).2.1 =
      (⟨"PUT", "/me/player", .transferBody ["dev1"] false⟩ : HttpRequest) :=
  ⟨rfl, rfl⟩

/-- C3 amended: every transferPlayback call issues exactly one remote
transfer request — a repeat call with the same device id issues a second,
identical, request rather than none — and the operation is idempotent on
the local state: repeating it leaves the state produced by the first call
unchanged. -/
theorem C3_amended (p : SpotifyPlayer) (deviceId : String) (startPlaying : Bool)
    (st1 st2 : Nat) :
    (transferPlayback p deviceId startPlaying st1).2.1 =
      (⟨"PUT", "/me/player", .transferBody [deviceId] startPlaying⟩ : HttpRequest) ∧
    (transferPlayback (transferPlayback p deviceId startPlaying st1).1
        deviceId startPlaying st2).2.1 =
      (⟨"PUT", "/me/player", .transferBody [deviceId] startPlaying⟩ : HttpRequest) ∧
    (transferPlayback (transferPlayback p deviceId startPlaying st1).1
        deviceId startPlaying st1).1 =
      (transferPlayback p deviceId startPlaying st1).1 := by
  unfold transferPlayback
  dsimp only
  (repeat' split) <;> simp_all

/-- C8 counterexample: the claim quantifies over all numeric inputs
including non-finite ones, but for NaN the value transmitted as
volume_percent is NaN itself — Math.round, Math.min and Math.max all
propagate NaN — which is not the input clamped into [0, 100]. -/
theorem C8_counterexample :
    setVolumeTransmitted JSNum.nan = JSNum.nan ∧
    inVolumeRange (setVolumeTransmitted JSNum.nan) = false :=
  ⟨rfl, rfl⟩

/-- C8 amended: for every numeric input other than NaN — finite values of
any size and both infinities included — the transmitted volume_percent is
the input rounded and clamped into [0, 100]; and the call's success or
failure depends only on the response status, never on the input value, so
an out-of-range input by itself never fails the caller.  NaN, however, is
transmitted as NaN. -/
theorem C8_amended (v v' : JSNum) (p : SpotifyPlayer) (status : Nat)
    (h : v ≠ JSNum.nan) :
    inVolumeRange (setVolumeTransmitted v) = true ∧
    (setVolume p v status).2 = (setVolume p v' status).2 := by
  refine ⟨?_, rfl⟩
  cases v with
  | nan => exact absurd rfl h
  | posInf => rfl
  | negInf => rfl
  | fin q =>
      have h0 : (0 : ℚ) ≤ max 0 (min 100 (((q + 1/2 : ℚ).floor : ℤ) : ℚ)) :=
        le_max_left 0 _
      have h100 : max 0 (min 100 (((q + 1/2 : ℚ).floor : ℤ) : ℚ)) ≤ 100 :=
        max_le (by norm_num) (min_le_left _ _)
      show (decide (0 ≤ max 0 (min 100 (((q + 1/2 : ℚ).floor : ℤ) : ℚ))) &&
            decide (max 0 (min 100 (((q + 1/2 : ℚ).floor : ℤ) : ℚ)) ≤ 100)) = true
      rw [decide_eq_true h0, decide_eq_true h100]
      rfl

/-- C8 witness: `C8_amended` at the non-finite input positive infinity
(clamped to 100) against a second arbitrary input. -/
theorem C8_amended_witness :
    JSNum.posInf ≠ JSNum.nan ∧
    (inVolumeRange (setVolumeTransmitted JSNum.posInf) = true ∧
     (setVolume samplePlayer JSNum.posInf 204).2 =
       (setVolume samplePlayer (JSNum.fin 250) 204).2) :=
  ⟨by decide, C8_amended JSNum.posInf (JSNum.fin 250) samplePlayer 204 (by decide)⟩

/-- C1 counterexample: in a successful scan-triggered play of trackB from a
gateway state currently holding trackA, the state observable while the
metadata fetch is awaited (a suspension point of the single-threaded event
loop, so any interleaved handler or caller reading the player sees it) has
isPlaying = true while currentTrack is still the pre-call track trackA and
not the newly played trackB — exactly the observation the claim rules
out. -/
theorem C1_counterexample :
    playMidState samplePlayer ∈
      playObservableStates samplePlayer "spotify:track:idB" none 204 (.ok trackB) ∧
    (playMidState samplePlayer).isPlaying = true ∧
    (playMidState samplePlayer).currentTrack = samplePlayer.currentTrack ∧
    samplePlayer.currentTrack = some trackA ∧
    some trackA ≠ some trackB := by
  refine ⟨?_, rfl, rfl, rfl, by decide⟩
  show playMidState samplePlayer ∈
    [samplePlayer, playMidState samplePlayer,
      (play samplePlayer "spotify:track:idB" none 204 (.ok trackB)).1]
  exact List.mem_cons_of_mem _ (List.mem_cons_self _ _)

/-- C1 amended: when the play call's result settles, the metadata fetch has
completed and been applied — on success the caller of play observes
isPlaying = true together with currentTrack equal to the freshly fetched
track.  The guarantee holds at the operation's completion but not at the
metadata-fetch suspension point, where isPlaying is already true while
currentTrack is still the pre-call value (see the counterexample). -/
theorem C1_amended (p : SpotifyPlayer) (uri : String) (deviceId : Option String)
    (status : Nat) (t : Track) (h : acceptedStatus status = true) :
    (play p uri deviceId status (.ok t)).1.isPlaying = true ∧
    (play p uri deviceId status (.ok t)).1.currentTrack = some t ∧
    (play p uri deviceId status (.ok t)).2.2 = .ok t := by
  unfold acceptedStatus at h
  unfold play
  dsimp only
  cases hA : apiRequest status with
  | error e => rw [hA] at h; exact absurd h (by simp)
  | ok st =>
      rw [hA] at h
      dsimp only
      rw [if_pos h]
      exact ⟨rfl, rfl, rfl⟩

/-- C1 witness: `C1_amended` at a concrete accepted play of trackB. -/
theorem C1_amended_witness :
    acceptedStatus 204 = true ∧
    ((play samplePlayer "spotify:track:idB" none 204 (.ok trackB)).1.isPlaying = true ∧
     (play samplePlayer "spotify:track:idB" none 204 (.ok trackB)).1.currentTrack = some trackB ∧
     (play samplePlayer "spotify:track:idB" none 204 (.ok trackB)).2.2 = .ok trackB) :=
  ⟨rfl, C1_amended samplePlayer "spotify:track:idB" none 204 trackB rfl⟩

/-- C2 counterexample: with the controller in active-play (sampleApp), a
play call failing with HTTP 401 leaves the stored token, the persisted
device and the screen exactly as they were — handleScan only toasts the
error; nothing is cleared and no transition to login happens. -/
theorem C2_counterexample :
    sampleApp.screen = "player-screen" ∧
    (handleScan sampleApp "spotify:track:idB" 401 (.ok trackB) 200 [sampleDevice]).1.storedToken
      = some "tok" ∧
    (handleScan sampleApp "spotify:track:idB" 401 (.ok trackB) 200 [sampleDevice]).1.savedDevice
      = some ⟨"dev1", "Kitchen speaker", "speaker"⟩ ∧
    (handleScan sampleApp "spotify:track:idB" 401 (.ok trackB) 200 [sampleDevice]).1.screen
      = "player-screen" := by
  refine ⟨rfl, ?_, ?_, ?_⟩ <;> decide

/-- C2 amended: a 401 on the play call mid-session is surfaced only as the
token-expired error toast, with stored token, persisted device and screen
all unchanged; the clearing of both stores together with the transition to
the login screen happens only when the token-expired error arises inside
initializePlayer (the profile or device-listing fetch). -/
theorem C2_amended (a : App) (uri : String) (tres : Except String Track)
    (dstatus : Nat) (devs : List Device) (screen0 : String)
    (tok0 : Option String) (sd : Option SavedDevice) (token : String)
    (dn : String) (dst : Nat) (ds : List Device) (sres : Except String Unit) :
    ((handleScan a uri 401 tres dstatus devs).1.storedToken = a.storedToken ∧
     (handleScan a uri 401 tres dstatus devs).1.savedDevice = a.savedDevice ∧
     (handleScan a uri 401 tres dstatus devs).1.screen = a.screen ∧
     (⟨msgExpired, "error"⟩ : Toast) ∈ (handleScan a uri 401 tres dstatus devs).1.toasts) ∧
    ((initializePlayer screen0 tok0 sd token 401 dn dst ds sres).storedToken = none ∧
     (initializePlayer screen0 tok0 sd token 401 dn dst ds sres).savedDevice = none ∧
     (initializePlayer screen0 tok0 sd token 401 dn dst ds sres).screen = "login-screen") := by
  have hf := handleScan_fixed a uri 401 tres dstatus devs
  have hp := play_apiError a.player uri none 401 tres msgExpired rfl
  exact ⟨⟨hf.1, hf.2.1, hf.2.2.1,
      handleScan_error_toast a uri 401 tres dstatus devs msgExpired hp.2⟩,
    rfl, rfl, rfl⟩

/-- C7 counterexample: from a revealed state, a scan whose play attempt
fails with HTTP 404 sets no new track — currentTrack still holds trackA —
yet the revealed flag is reset to false, so the reset does not happen
exactly when a new Track is set. -/
theorem C7_counterexample :
    sampleApp.isYearRevealed = true ∧
    (stepApp sampleApp
      (.scan "spotify:track:idB" 404 (.ok trackB) 200 [sampleDevice])).isYearRevealed = false ∧
    (stepApp sampleApp
      (.scan "spotify:track:idB" 404 (.ok trackB) 200 [sampleDevice])).player.currentTrack
      = sampleApp.player.currentTrack := by
  refine ⟨rfl, ?_, ?_⟩ <;> decide

/-- C7 amended: the revealed flag resets to false on every scan event —
including one whose play attempt fails without setting a track — becomes
true only via the explicit reveal action, which is a no-op when repeated,
and no other operation of the active-play session (reveal, toggle) ever
sets it back to false. -/
theorem C7_amended (a : App) (uri : String) (ps : Nat) (tres : Except String Track)
    (ds : Nat) (devs : List Device) (st : Nat) :
    (stepApp a (.scan uri ps tres ds devs)).isYearRevealed = false ∧
    (stepApp a .reveal).isYearRevealed = true ∧
    stepApp (stepApp a .reveal) .reveal = stepApp a .reveal ∧
    (stepApp a (.toggle st)).isYearRevealed = a.isYearRevealed := by
  refine ⟨(handleScan_fixed a uri ps tres ds devs).2.2.2.1, rfl, rfl, ?_⟩
  show (togglePlaybackApp a st).isYearRevealed = a.isYearRevealed
  unfold togglePlaybackApp
  (repeat' split) <;> rfl

/-- C6 counterexample: with a device selected, activating the start action
transitions to the player screen while issuing no HTTP request at all — in
particular no transfer of playback (no PUT /me/player): selectAndTransfer
is never performed by startScanning. -/
theorem C6_counterexample :
    sampleSetupAppDev.selectedDevice = some sampleDevice ∧
    (startScanning sampleSetupAppDev (.ok ())).2 = [] ∧
    (startScanning sampleSetupAppDev (.ok ())).1.screen = "player-screen" :=
  ⟨rfl, rfl, rfl⟩

/-- C6 amended: the start action is guarded on a selected device — with
none selected it only warns and stays on its screen, issuing nothing — and
with a device selected it transitions straight to active-play, issuing no
remote transfer call; the chosen device is targeted instead through the
device_id query parameter of the subsequent play requests. -/
theorem C6_amended (a : App) (sres : Except String Unit) (uri : String)
    (st : Nat) (tres : Except String Track) (d : String) :
    (a.selectedDevice = none →
      (startScanning a sres).1.screen = a.screen ∧
      (⟨"Please select a device first", "warning"⟩ : Toast) ∈
        (startScanning a sres).1.toasts ∧
      (startScanning a sres).2 = []) ∧
    (∀ dev : Device, a.selectedDevice = some dev →
      (startScanning a sres).1.screen = "player-screen" ∧
      (startScanning a sres).2 = []) ∧
    (a.player.selectedDeviceId = some d →
      ((play a.player uri none st tres).2.1.head?).map HttpRequest.endpoint =
        some ("/me/player/play?device_id=" ++ d)) := by
  refine ⟨?_, ?_, ?_⟩
  · intro h
    unfold startScanning
    rw [h]
    simp [List.mem_append]
  · intro dev h
    unfold startScanning
    rw [h]
    dsimp only [Option.isNone]
    rw [if_neg (by simp)]
    split <;> exact ⟨rfl, rfl⟩
  · intro h
    unfold play
    dsimp only
    rw [h]
    dsimp only
    (repeat' split) <;> rfl

/-- C6 witness: `C6_amended` applied with no device selected
(sampleSetupApp) and with a selected device (sampleSetupAppDev). -/
theorem C6_amended_witness :
    ((startScanning sampleSetupApp (.ok ())).1.screen = sampleSetupApp.screen ∧
     (⟨"Please select a device first", "warning"⟩ : Toast) ∈
       (startScanning sampleSetupApp (.ok ())).1.toasts ∧
     (startScanning sampleSetupApp (.ok ())).2 = []) ∧
    ((startScanning sampleSetupAppDev (.ok ())).1.screen = "player-screen" ∧
     (startScanning sampleSetupAppDev (.ok ())).2 = []) ∧
    ((play sampleSetupAppDev.player "spotify:track:idB" none 204 (.ok trackB)).2.1.head?).map
        HttpRequest.endpoint = some ("/me/player/play?device_id=" ++ "dev1") :=
  ⟨(C6_amended sampleSetupApp (.ok ()) "spotify:track:idB" 204 (.ok trackB) "dev1").1 rfl,
   (C6_amended sampleSetupAppDev (.ok ()) "spotify:track:idB" 204 (.ok trackB) "dev1").2.1
     sampleDevice rfl,
   (C6_amended sampleSetupAppDev (.ok ()) "spotify:track:idB" 204 (.ok trackB) "dev1").2.2 rfl⟩

/-- C4 counterexample: with the 3000 ms cooldown startScanning configures,
decode events at times 0 and 3500 are both delivered; when the first play
request is still outstanding at 3500 (it may take, say, 5000 ms), the
second event is not ignored — its handler issues one more play request, so
a second play call is made while the first is in flight. -/
theorem C4_counterexample :
    deliveredScanTimes 3000 [0, 3500] = [0, 3500] ∧
    3500 < 0 + 5000 ∧
    countPlayRequests
      (handleScan sampleApp "spotify:track:idB" 204 (.ok trackB) 200 [sampleDevice]).2 = 1 := by
  refine ⟨by decide, by decide, by decide⟩

/-- C4 amended: the only re-entrancy protection is the scanner cooldown —
two decode events within cooldownMs produce exactly one delivered scan (the
second is ignored, neither queued nor cancelled), and each delivered scan
issues exactly one play request; but delivery does not consider whether a
play request is still in flight, so an event arriving after the cooldown
elapsed is delivered and issues a further play call even while the previous
one is outstanding. -/
theorem C4_amended (c t1 t2 : Nat) (a : App) (uri : String) (ps : Nat)
    (tres : Except String Track) (ds : Nat) (devs : List Device) :
    (t2 < t1 + c → deliveredScanTimes c [t1, t2] = [t1]) ∧
    (t1 + c ≤ t2 → deliveredScanTimes c [t1, t2] = [t1, t2]) ∧
    countPlayRequests (handleScan a uri ps tres ds devs).2 = 1 := by
  refine ⟨?_, ?_, countPlay_handleScan a uri ps tres ds devs⟩
  · intro h
    simp only [deliveredScanTimes, deliveredScanTimesAux]
    rw [if_neg (by omega)]
  · intro h
    simp only [deliveredScanTimes, deliveredScanTimesAux]
    rw [if_pos h]

/-- C4 witness: `C4_amended` at a within-cooldown pair (0, 2000), an
after-cooldown pair (0, 3000), and a concrete failing scan. -/
theorem C4_amended_witness :
    (2000 < 0 + 3000 ∧ deliveredScanTimes 3000 [0, 2000] = [0]) ∧
    (0 + 3000 ≤ 3000 ∧ deliveredScanTimes 3000 [0, 3000] = [0, 3000]) ∧
    countPlayRequests
      (handleScan sampleSetupApp "spotify:track:idA" 500 (.error "boom") 200 []).2 = 1 :=
  ⟨⟨by decide,
    (C4_amended 3000 0 2000 sampleSetupApp "spotify:track:idA" 500 (.error "boom") 200 []).1
      (by decide)⟩,
   ⟨by decide,
    (C4_amended 3000 0 3000 sampleSetupApp "spotify:track:idA" 500 (.error "boom") 200 []).2.1
      (by decide)⟩,
   (C4_amended 3000 0 3000 sampleSetupApp "spotify:track:idA" 500 (.error "boom") 200 []).2.2⟩
